import Mathlib

/-!
Verification model of `hot_reload.py` (Py-HotReloader).

The Python source is shallowly embedded: paths and module names are `String`s,
file contents are byte lists (`List Nat`, each entry `< 256`), the filesystem is a
partial map from path to content, Python's `dict` (insertion ordered) is an
association list, and the dynamic-import machinery (`importlib`), the user
callback and `Path.resolve` are oracles supplied as parameters.  Machine-level
hashing (`hashlib.md5(...).hexdigest()`) is embedded as a full executable MD5
over `Nat` with explicit `% 2^32` truncation.
-/

namespace HotReload

/-! ## MD5 (model of `hashlib.md5(data).hexdigest()`)

Standard MD5 (RFC 1321): pad the message, process 64-byte blocks with the
64-round compression function, output the four 32-bit state words as
little-endian lowercase hex. -/

/-- Truncate to a 32-bit word. -/
def w32 (n : Nat) : Nat := n % 4294967296

/-- Bitwise complement on 32-bit words (argument assumed `< 2^32`). -/
def mnot (x : Nat) : Nat := 4294967295 - x

/-- Left-rotate a 32-bit word by `s` bits (`0 < s < 32`). -/
def rotl (x s : Nat) : Nat := w32 (x <<< s) ||| (x >>> (32 - s))

/-- The 64 MD5 round constants `floor(|sin(i+1)| * 2^32)`. -/
def mdK : List Nat :=
  [0xd76aa478, 0xe8c7b756, 0x242070db, 0xc1bdceee,
   0xf57c0faf, 0x4787c62a, 0xa8304613, 0xfd469501,
   0x698098d8, 0x8b44f7af, 0xffff5bb1, 0x895cd7be,
   0x6b901122, 0xfd987193, 0xa679438e, 0x49b40821,
   0xf61e2562, 0xc040b340, 0x265e5a51, 0xe9b6c7aa,
   0xd62f105d, 0x02441453, 0xd8a1e681, 0xe7d3fbc8,
   0x21e1cde6, 0xc33707d6, 0xf4d50d87, 0x455a14ed,
   0xa9e3e905, 0xfcefa3f8, 0x676f02d9, 0x8d2a4c8a,
   0xfffa3942, 0x8771f681, 0x6d9d6122, 0xfde5380c,
   0xa4beea44, 0x4bdecfa9, 0xf6bb4b60, 0xbebfbc70,
   0x289b7ec6, 0xeaa127fa, 0xd4ef3085, 0x04881d05,
   0xd9d4d039, 0xe6db99e5, 0x1fa27cf8, 0xc4ac5665,
   0xf4292244, 0x432aff97, 0xab9423a7, 0xfc93a039,
   0x655b59c3, 0x8f0ccc92, 0xffeff47d, 0x85845dd1,
   0x6fa87e4f, 0xfe2ce6e0, 0xa3014314, 0x4e0811a1,
   0xf7537e82, 0xbd3af235, 0x2ad7d2bb, 0xeb86d391]

/-- The 64 MD5 per-round left-rotation amounts. -/
def mdS : List Nat :=
  [7, 12, 17, 22, 7, 12, 17, 22, 7, 12, 17, 22, 7, 12, 17, 22,
   5, 9, 14, 20, 5, 9, 14, 20, 5, 9, 14, 20, 5, 9, 14, 20,
   4, 11, 16, 23, 4, 11, 16, 23, 4, 11, 16, 23, 4, 11, 16, 23,
   6, 10, 15, 21, 6, 10, 15, 21, 6, 10, 15, 21, 6, 10, 15, 21]

/-- One MD5 round: `M` is the 16-word message block, `i` the round index. -/
def md5round (M : List Nat) (st : Nat × Nat × Nat × Nat) (i : Nat) :
    Nat × Nat × Nat × Nat :=
  let a := st.1
  let b := st.2.1
  let c := st.2.2.1
  let d := st.2.2.2
  let fg : Nat × Nat :=
    if i < 16 then ((b &&& c) ||| (mnot b &&& d), i)
    else if i < 32 then ((d &&& b) ||| (mnot d &&& c), (5 * i + 1) % 16)
    else if i < 48 then (b ^^^ c ^^^ d, (3 * i + 5) % 16)
    else (c ^^^ (b ||| mnot d), (7 * i) % 16)
  let t := w32 (fg.1 + a + mdK.getD i 0 + M.getD fg.2 0)
  (d, w32 (b + rotl t (mdS.getD i 0)), b, c)

/-- Process one 16-word block, adding the round result into the running state. -/
def md5block (st : Nat × Nat × Nat × Nat) (M : List Nat) :
    Nat × Nat × Nat × Nat :=
  let r := (List.range 64).foldl (md5round M) st
  (w32 (st.1 + r.1), w32 (st.2.1 + r.2.1), w32 (st.2.2.1 + r.2.2.1),
   w32 (st.2.2.2 + r.2.2.2))

/-- `k` little-endian bytes of `n`. -/
def leBytes : Nat → Nat → List Nat
  | 0, _ => []
  | k + 1, n => n % 256 :: leBytes k (n / 256)

/-- MD5 padding: append `0x80`, zero bytes to 56 mod 64, then the 64-bit
little-endian bit length. -/
def md5pad (msg : List Nat) : List Nat :=
  let z := (119 - msg.length % 64) % 64
  msg ++ [128] ++ List.replicate z 0 ++ leBytes 8 ((8 * msg.length) % 18446744073709551616)

/-- Group bytes into little-endian 32-bit words (input length a multiple of 4). -/
def toLEWords : List Nat → List Nat
  | b0 :: b1 :: b2 :: b3 :: rest =>
      (b0 + 256 * b1 + 65536 * b2 + 16777216 * b3) :: toLEWords rest
  | _ => []

/-- Fold the compression function over `n` successive 16-word blocks. -/
def md5blocksGo : Nat → (Nat × Nat × Nat × Nat) → List Nat → Nat × Nat × Nat × Nat
  | 0, st, _ => st
  | n + 1, st, ws => md5blocksGo n (md5block st (ws.take 16)) (ws.drop 16)

/-- Fold the compression function over all 16-word blocks of `ws`
(the padded message always splits into whole blocks). -/
def md5blocks (st : Nat × Nat × Nat × Nat) (ws : List Nat) :
    Nat × Nat × Nat × Nat :=
  md5blocksGo ((ws.length + 15) / 16) st ws

/-- Lowercase hex digit. -/
def hexChar (n : Nat) : Char :=
  if n < 10 then Char.ofNat (48 + n) else Char.ofNat (87 + n)

/-- Two lowercase hex digits of a byte. -/
def byteHex (b : Nat) : List Char := [hexChar (b / 16 % 16), hexChar (b % 16)]

/-- A 32-bit word as 8 hex digits, little-endian byte order (MD5 output order). -/
def wordLEHex (w : Nat) : List Char :=
  byteHex (w % 256) ++ byteHex (w / 256 % 256) ++ byteHex (w / 65536 % 256) ++
    byteHex (w / 16777216 % 256)

/-- `hashlib.md5(bytes(msg)).hexdigest()`. -/
def md5hex (msg : List Nat) : String :=
  let r := md5blocks (0x67452301, 0xefcdab89, 0x98badcfe, 0x10325476)
      (toLEWords (md5pad msg))
  String.mk (wordLEHex r.1 ++ wordLEHex r.2.1 ++ wordLEHex r.2.2.1 ++ wordLEHex r.2.2.2)

/-! ## Python dict (insertion-ordered association list over `String`) -/

/-- `d.get(k)` / `d[k]` lookup. -/
def dictGet (d : List (String × String)) (k : String) : Option String :=
  (d.find? fun p => p.1 == k).map fun p => p.2

/-- `k in d`. -/
def dictContains (d : List (String × String)) (k : String) : Bool :=
  (d.find? fun p => p.1 == k).isSome

/-- `d[k] = v`: update in place if present, else append (Python insertion order). -/
def dictSet (d : List (String × String)) (k v : String) : List (String × String) :=
  if dictContains d k then d.map fun p => if p.1 = k then (k, v) else p
  else d ++ [(k, v)]

/-! ## Filesystem and Digest Tracker

The filesystem is a partial map from path to byte content; `os.path.exists`
and the `open(...).read()` of `_get_file_hash` are modelled against the same
map (the existence check and the read are treated as one atomic snapshot). -/

/-- A filesystem snapshot: path to file content. -/
def FS : Type := String → Option (List Nat)

/-- `os.path.exists(p)` (for file paths). -/
def os_path_exists (fs : FS) (p : String) : Bool := (fs p).isSome

/-- `CodeReloader._get_file_hash`: read the file and MD5-hex its bytes.
`none` models the unreachable case of reading a nonexistent file. -/
def get_file_hash (fs : FS) (filepath : String) : Option String :=
  (fs filepath).map md5hex

/-- `CodeReloader._has_file_changed`: returns the reported flag and the updated
`file_hashes` table. -/
def has_file_changed (fs : FS) (file_hashes : List (String × String))
    (filepath : String) : Bool × List (String × String) :=
  if !(os_path_exists fs filepath) then (false, file_hashes)
  else
    match get_file_hash fs filepath with
    | none => (false, file_hashes)
    | some current_hash =>
      if !(dictContains file_hashes filepath) then
        (true, dictSet file_hashes filepath current_hash)
      else if some current_hash ≠ dictGet file_hashes filepath then
        (true, dictSet file_hashes filepath current_hash)
      else (false, file_hashes)

/-! ## Module Resolver (`CodeReloader._verify_module_exists`)

Paths are plain strings with `/` as separator; the user-supplied target is
assumed to be in `pathlib` normal form (no `./`, no doubled or trailing
separators), which is how `Path(target)` would render it. -/

/-- `pathlib` join: `Path() / b` is just `b`; otherwise insert a separator. -/
def pjoin (a b : String) : String := if a = "" then b else a ++ "/" ++ b

/-- The final path component (text after the last separator). -/
def lastComponent (s : String) : String :=
  String.mk ((s.data.reverse.takeWhile fun c => c ≠ '/').reverse)

/-- `Path(s).stem`: the final component minus its suffix; a leading dot or a
trailing dot does not start a suffix (CPython rule `0 < i < len(name) - 1`). -/
def stem (s : String) : String :=
  let name := lastComponent s
  let i := name.length - 1 - ((name.data.reverse.indexOf '.' : Nat))
  if name.data.contains '.' ∧ 0 < i ∧ i < name.length - 1 then
    String.mk (name.data.take i)
  else name

/-- `Path(p).with_suffix('')` as a string: drop the suffix of the final
component. -/
def with_suffix_empty (p : String) : String :=
  let name := lastComponent p
  String.mk (p.data.take (p.length - name.length)) ++ stem p

/-- The search roots tried by `_verify_module_exists`: current directory, then
the `Utils` subdirectory. -/
def base_paths : List String := ["", "Utils"]

/-- The ordered candidate list built by `_verify_module_exists`: each root is
paired with the direct-file, package and literal-path patterns. -/
def possible_paths (target_module : String) : List String :=
  let module_name := stem target_module
  base_paths.flatMap fun base =>
    [pjoin base (module_name ++ ".py"),
     pjoin (pjoin base module_name) "__init__.py",
     pjoin base (target_module ++ ".py")]

/-- Derivation of the dotted module name from the matching file path:
`str(path.with_suffix('')).replace(os.sep, '.')`, minus a leading dot
(the separator is a single character, so the replace is a character map). -/
def module_dotted_name (path : String) : String :=
  let cs := (with_suffix_empty path).data.map fun c => if c = '/' then '.' else c
  match cs with
  | '.' :: rest => String.mk rest
  | _ => String.mk cs

/-- `CodeReloader._verify_module_exists`: return the dotted name and file path
of the first existing candidate, or the full attempted list on failure
(the `ImportError` message lists exactly these paths in order). -/
def verify_module_exists (path_exists : String → Bool) (target_module : String) :
    Except (List String) (String × String) :=
  match (possible_paths target_module).find? path_exists with
  | some path => .ok (module_dotted_name path, path)
  | none => .error (possible_paths target_module)

/-! ## `sys.path` registration (`CodeReloader._add_current_dir_to_path`) -/

/-- The loop body of `_add_current_dir_to_path`:
`if os.path.exists(path) and path not in sys.path: sys.path.insert(0, path)`. -/
def pstep (dir_exists : String → Bool) (sp : List String) (p : String) :
    List String :=
  if dir_exists p = true ∧ p ∉ sp then p :: sp else sp

/-- `_add_current_dir_to_path`: prepend each existing, not-yet-present root
(current directory, then `Utils`) to `sys.path`. -/
def add_current_dir_to_path (dir_exists : String → Bool) (watch_path : String)
    (sys_path : List String) : List String :=
  let paths_to_add := [watch_path, pjoin watch_path "Utils"]
  paths_to_add.foldl (pstep dir_exists) sys_path

/-! ## Reloader state and observable events -/

/-- Observable events: console output (clear, header, success/error lines) and
the invocation of the user callback with a module handle. Module handles are
opaque and modelled as `Nat`. -/
inductive Ev where
  | clearConsole : Ev
  | header (module_name : String) : Ev
  | success (module_name : String) : Ev
  | errorLine (msg : String) : Ev
  | callbackCall (m : Nat) : Ev
deriving DecidableEq, Repr

/-- Console output versus other observable behaviour. -/
def Ev.isConsole : Ev → Bool
  | .clearConsole => true
  | .header _ => true
  | .success _ => true
  | .errorLine _ => true
  | .callbackCall _ => false

/-- The mutable state of a `CodeReloader` (plus the global `sys.path`, which
only the reloader mutates in this program). -/
structure Reloader where
  target_module : String
  module : Option Nat
  file_hashes : List (String × String)
  watch_path : String
  show_ui : Bool
  clear_on_reload : Bool
  module_name : String
  module_file_path : String
  sys_path : List String
deriving DecidableEq, Repr

/-- External collaborators: the filesystem snapshot, directory existence (for
`sys.path` roots), `importlib.import_module`, `importlib.reload`, the optional
user callback (which may itself raise), and `Path.resolve`. -/
structure Env where
  fs : FS
  dir_exists : String → Bool
  import_module : String → Except String Nat
  reload : Nat → Except String Nat
  callback : Option (Nat → Except String Unit)
  resolve : String → String

/-- The two `print_error` lines of the `except` branch of `reload_module`. -/
def reload_error_events (st : Reloader) (e : String) : List Ev :=
  if st.show_ui then
    [.errorLine ("Error reloading " ++ st.module_name ++ ": " ++ e),
     .errorLine ("Module path: " ++ st.module_name.replace "." "/" ++ ".py")]
  else []

/-- `CodeReloader.reload_module`: clear/header when configured, register the
search roots on `sys.path`, import (first time) or reload (afterwards), then
run the callback; any exception is caught, leaving the state reached at the
point of the raise. -/
def reload_module (env : Env) (st : Reloader) : Reloader × List Ev :=
  let pre : List Ev :=
    if st.clear_on_reload then
      .clearConsole :: (if st.show_ui then [.header st.module_name] else [])
    else []
  let st := { st with
    sys_path := add_current_dir_to_path env.dir_exists st.watch_path st.sys_path }
  let attempt : Except String Nat :=
    match st.module with
    | none => env.import_module st.module_name
    | some m => env.reload m
  match attempt with
  | .error e => (st, pre ++ reload_error_events st e)
  | .ok m =>
    let st := { st with module := some m }
    match env.callback with
    | none =>
      (st, pre ++ (if st.show_ui then [.success st.module_name] else []))
    | some cb =>
      match cb m with
      | .error e => (st, pre ++ [.callbackCall m] ++ reload_error_events st e)
      | .ok _ =>
        (st, pre ++ [.callbackCall m] ++
          (if st.show_ui then [.success st.module_name] else []))

/-! ## Change Watcher (`FileChangeHandler.on_modified`) -/

/-- `event.src_path.endswith('.py')`. -/
def endswith_py (s : String) : Bool :=
  decide (s.data.reverse.take 3 = ['y', 'p', '.'])

/-- `FileChangeHandler.on_modified`, given the notification's `src_path`:
filter to `.py` files, compare resolved paths, consult the digest tracker
(short-circuit: only when the paths match), and reload on a confirmed change. -/
def on_modified (env : Env) (st : Reloader) (src_path : String) :
    Reloader × List Ev :=
  if endswith_py src_path then
    let event_path := env.resolve src_path
    let module_path := env.resolve st.module_file_path
    if event_path = module_path then
      let r := has_file_changed env.fs st.file_hashes event_path
      let st := { st with file_hashes := r.2 }
      if r.1 then reload_module env st else (st, [])
    else (st, [])
  else (st, [])

/-! ## Startup (`CodeReloader.__init__`, `watch_and_reload`) and CLI -/

/-- Python `str.replace('.py', '')` on a character list: delete every
(left-to-right, non-overlapping) occurrence of `.py`. -/
def stripPyChars : List Char → List Char
  | [] => []
  | c1 :: c2 :: c3 :: rest3 =>
    if c1 = '.' ∧ c2 = 'p' ∧ c3 = 'y' then stripPyChars rest3
    else c1 :: stripPyChars (c2 :: c3 :: rest3)
  | c1 :: rest1 => c1 :: stripPyChars rest1

/-- `target_module.replace('.py', '')`. -/
def stripPyStr (s : String) : String := String.mk (stripPyChars s.data)

/-- Whether `.py` occurs anywhere in the character list. -/
def hasPySub : List Char → Bool
  | [] => false
  | c1 :: c2 :: c3 :: rest3 =>
    if c1 = '.' ∧ c2 = 'p' ∧ c3 = 'y' then true
    else hasPySub (c2 :: c3 :: rest3)
  | _ :: rest1 => hasPySub rest1

/-- `CodeReloader.__init__`: resolve the target (raising `ImportError` with the
attempted candidates on failure), initialise the state with no loaded module
and an empty digest table, and print the header when the UI is enabled. -/
def codeReloader_init (env : Env) (target_module : String)
    (show_ui clear_on_reload : Bool) (watch_path : String)
    (sys_path0 : List String) : Except (List String) (Reloader × List Ev) :=
  match verify_module_exists (fun p => os_path_exists env.fs p) target_module with
  | .error attempted => .error attempted
  | .ok nf =>
    .ok ({ target_module := target_module
           module := none
           file_hashes := []
           watch_path := watch_path
           show_ui := show_ui
           clear_on_reload := clear_on_reload
           module_name := nf.1
           module_file_path := nf.2
           sys_path := sys_path0 },
         if show_ui then [.header nf.1] else [])

/-- `watch_and_reload` up to the watch loop: strip `.py` from the target,
construct the `CodeReloader`, and start the observer.  No load is performed
here; the returned state is the one the watch loop starts with. -/
def watch_and_reload_startup (env : Env) (target_module : String)
    (show_ui clear_on_reload : Bool) (watch_path : String)
    (sys_path0 : List String) : Except (List String) (Reloader × List Ev) :=
  codeReloader_init env (stripPyStr target_module) show_ui clear_on_reload
    watch_path sys_path0

/-- Parsed command-line arguments (`argparse` result). -/
structure Args where
  module : Option String
  version : Bool
  noUI : Bool
  clear : Bool
deriving DecidableEq, Repr

/-- Outcome of the `__main__` block, up to the watch loop. -/
inductive MainOutcome where
  | versionShown : MainOutcome
  | helpShown : MainOutcome
  | resolutionError (attempted : List String) : MainOutcome
  | watching (st : Reloader) (startup_events : List Ev) : MainOutcome
deriving Repr

/-- The process exit code of each outcome (`none` while still watching). -/
def exit_code : MainOutcome → Option Nat
  | .versionShown => some 0
  | .helpShown => some 1
  | .resolutionError _ => some 1
  | .watching _ _ => none

/-- The `__main__` block: version flag first (exit 0), then missing module
(help, exit 1), then `module_name = args.module.replace('.py', '')` and
`watch_and_reload` (whose `ImportError` is printed, exit 1). -/
def main_logic (env : Env) (watch_path : String) (sys_path0 : List String)
    (args : Args) : MainOutcome :=
  if args.version then .versionShown
  else
    match args.module with
    | none => .helpShown
    | some m =>
      let module_name := stripPyStr m
      match watch_and_reload_startup env module_name (!args.noUI) args.clear
          watch_path sys_path0 with
      | .error attempted => .resolutionError attempted
      | .ok r => .watching r.1 r.2

/-! ## Projections used by the hyperproperty claims -/

/-- Everything in a `Reloader` except the `show_ui` flag. -/
def coreState (st : Reloader) :
    String × Option Nat × List (String × String) × String × Bool × String ×
      String × List String :=
  (st.target_module, st.module, st.file_hashes, st.watch_path,
   st.clear_on_reload, st.module_name, st.module_file_path, st.sys_path)

/-- The non-console events of a trace (callback invocations). -/
def callbackEvents (evs : List Ev) : List Ev :=
  evs.filter fun e => !(e.isConsole)

/-! ## Concrete sample data (used to instantiate the general theorems)

`collA`/`collB` are the classical Wang–Feng–Lai–Yu MD5 collision pair: two
distinct 128-byte messages with equal MD5 digests. -/

def collA : List Nat :=
  [209, 49, 221, 2, 197, 230, 238, 196, 105, 61, 154, 6, 152, 175, 249, 92,
   47, 202, 181, 135, 18, 70, 126, 171, 64, 4, 88, 62, 184, 251, 127, 137,
   85, 173, 52, 6, 9, 244, 179, 2, 131, 228, 136, 131, 37, 113, 65, 90,
   8, 81, 37, 232, 247, 205, 201, 159, 217, 29, 189, 242, 128, 55, 60, 91,
   216, 130, 62, 49, 86, 52, 143, 91, 174, 109, 172, 212, 54, 201, 25, 198,
   221, 83, 226, 180, 135, 218, 3, 253, 2, 57, 99, 6, 210, 72, 205, 160,
   233, 159, 51, 66, 15, 87, 126, 232, 206, 84, 182, 112, 128, 168, 13, 30,
   198, 152, 33, 188, 182, 168, 131, 147, 150, 249, 101, 43, 111, 247, 42, 112]

def collB : List Nat :=
  [209, 49, 221, 2, 197, 230, 238, 196, 105, 61, 154, 6, 152, 175, 249, 92,
   47, 202, 181, 7, 18, 70, 126, 171, 64, 4, 88, 62, 184, 251, 127, 137,
   85, 173, 52, 6, 9, 244, 179, 2, 131, 228, 136, 131, 37, 241, 65, 90,
   8, 81, 37, 232, 247, 205, 201, 159, 217, 29, 189, 114, 128, 55, 60, 91,
   216, 130, 62, 49, 86, 52, 143, 91, 174, 109, 172, 212, 54, 201, 25, 198,
   221, 83, 226, 52, 135, 218, 3, 253, 2, 57, 99, 6, 210, 72, 205, 160,
   233, 159, 51, 66, 15, 87, 126, 232, 206, 84, 182, 112, 128, 40, 13, 30,
   198, 152, 33, 188, 182, 168, 131, 147, 150, 249, 101, 171, 111, 247, 42, 112]

/-- A filesystem with a single target file `test_module.py`. -/
def fsA : FS := fun p => if p = "test_module.py" then some [97] else none

/-- A sample environment over `fsA` whose callback never raises. -/
def envA : Env where
  fs := fsA
  dir_exists := fun p => p == "/w" || p == "/w/Utils"
  import_module := fun _ => .ok 1
  reload := fun m => .ok (m + 1)
  callback := none
  resolve := fun p => "/w/" ++ p

/-- A sample environment whose user callback always raises. -/
def envB : Env where
  fs := fsA
  dir_exists := fun _ => false
  import_module := fun _ => .ok 1
  reload := fun m => .ok (m + 1)
  callback := some fun _ => .error "boom"
  resolve := fun p => p

/-- A sample environment whose reload attempt always fails. -/
def envC : Env where
  fs := fsA
  dir_exists := fun _ => false
  import_module := fun _ => .error "SyntaxError"
  reload := fun _ => .error "SyntaxError"
  callback := some fun _ => .ok ()
  resolve := fun p => p

/-- A sample reloader state holding the handle `5` for `test_module`. -/
def stA : Reloader where
  target_module := "test_module"
  module := some 5
  file_hashes := []
  watch_path := "/w"
  show_ui := true
  clear_on_reload := false
  module_name := "test_module"
  module_file_path := "test_module.py"
  sys_path := []

/-- A sample environment whose reload succeeds and whose callback returns
normally. -/
def envD : Env where
  fs := fsA
  dir_exists := fun _ => false
  import_module := fun _ => .ok 1
  reload := fun m => .ok (m + 1)
  callback := some fun _ => .ok ()
  resolve := fun p => p

/-! # Theorems -/

theorem dictContains_eq_isSome (d : List (String × String)) (k : String) :
    dictContains d k = (dictGet d k).isSome := by
  simp [dictContains, dictGet]

/-- **C3**: the change check on a path: nonexistent path reports false without
mutation; first hash records and reports true; a differing hash updates and
reports true; an identical hash reports false and leaves the table unchanged. -/
theorem has_file_changed_spec (fs : FS) (hashes : List (String × String))
    (filepath : String) :
    (fs filepath = none → has_file_changed fs hashes filepath = (false, hashes)) ∧
    (∀ c, fs filepath = some c → dictGet hashes filepath = none →
      has_file_changed fs hashes filepath =
        (true, dictSet hashes filepath (md5hex c))) ∧
    (∀ c h, fs filepath = some c → dictGet hashes filepath = some h →
      md5hex c ≠ h →
      has_file_changed fs hashes filepath =
        (true, dictSet hashes filepath (md5hex c))) ∧
    (∀ c h, fs filepath = some c → dictGet hashes filepath = some h →
      md5hex c = h →
      has_file_changed fs hashes filepath = (false, hashes)) := by
  refine ⟨fun h0 => ?_, fun c hc hg => ?_, fun c h hc hg hne => ?_,
    fun c h hc hg he => ?_⟩
  · simp [has_file_changed, os_path_exists, h0]
  · simp [has_file_changed, os_path_exists, get_file_hash, hc,
      dictContains_eq_isSome, hg]
  · simp [has_file_changed, os_path_exists, get_file_hash, hc,
      dictContains_eq_isSome, hg, hne]
  · simp [has_file_changed, os_path_exists, get_file_hash, hc,
      dictContains_eq_isSome, hg, he]

theorem has_file_changed_spec_witness :
    has_file_changed fsA [] "test_module.py" =
      (true, dictSet [] "test_module.py" (md5hex [97])) :=
  (has_file_changed_spec fsA [] "test_module.py").2.1 [97] rfl rfl

/-- **C4**: resolution returns the first candidate (in the fixed root-major,
pattern-minor order of `possible_paths`) that exists, and on failure reports
exactly the attempted candidates in that order. -/
theorem verify_module_exists_spec (path_exists : String → Bool)
    (target_module : String) :
    (∀ p, (possible_paths target_module).find? path_exists = some p →
      verify_module_exists path_exists target_module =
        .ok (module_dotted_name p, p)) ∧
    ((possible_paths target_module).find? path_exists = none →
      verify_module_exists path_exists target_module =
        .error (possible_paths target_module)) := by
  constructor
  · intro p hp
    simp [verify_module_exists, hp]
  · intro h
    simp [verify_module_exists, h]

theorem verify_module_exists_spec_witness :
    verify_module_exists
        (fun p => p == "Utils/test.py" || p == "Utils/test/__init__.py")
        "Utils/test" =
      .ok (module_dotted_name "Utils/test.py", "Utils/test.py") :=
  (verify_module_exists_spec _ "Utils/test").1 "Utils/test.py" (by decide)

/-- **C6**: a notification whose resolved path differs from the resolved
target path leaves the reloader state (module handle, digest table,
`sys.path`) unchanged and produces no events at all. -/
theorem on_modified_other_path_noop (env : Env) (st : Reloader)
    (src_path : String)
    (h : env.resolve src_path ≠ env.resolve st.module_file_path) :
    on_modified env st src_path = (st, []) := by
  unfold on_modified
  by_cases he : endswith_py src_path <;> simp [he, h]

theorem on_modified_other_path_noop_witness :
    on_modified envA stA "other.py" = (stA, []) :=
  on_modified_other_path_noop envA stA "other.py" (by decide)

theorem pstep_mem (de : String → Bool) (sp : List String) (p q : String)
    (h : q ∈ sp) : q ∈ pstep de sp p := by
  unfold pstep
  split
  · exact List.mem_cons_of_mem _ h
  · exact h

theorem pstep_self_mem (de : String → Bool) (sp : List String) (p : String)
    (h : de p = true) : p ∈ pstep de sp p := by
  unfold pstep
  split
  · exact List.mem_cons_self _ _
  · next hc =>
    rcases not_and_or.mp hc with h1 | h2
    · exact absurd h h1
    · exact not_not.mp h2

theorem pstep_of_mem (de : String → Bool) (sp : List String) (p : String)
    (h : p ∈ sp) : pstep de sp p = sp := by
  unfold pstep
  rw [if_neg]
  rintro ⟨-, h2⟩
  exact h2 h

theorem pstep_of_not_exists (de : String → Bool) (sp : List String) (p : String)
    (h : ¬ de p = true) : pstep de sp p = sp := by
  unfold pstep
  rw [if_neg]
  rintro ⟨h1, -⟩
  exact h h1

theorem pstep_count_le (de : String → Bool) (sp : List String) (p r : String)
    (h : sp.count r ≤ 1) : (pstep de sp p).count r ≤ 1 := by
  unfold pstep
  split
  · next hc =>
    rcases hc with ⟨-, hnm⟩
    rw [List.count_cons]
    by_cases hpr : p = r
    · subst hpr
      have : sp.count p = 0 := List.count_eq_zero.mpr hnm
      simp [this]
    · simp [hpr, h]
  · exact h

/-- **C7**: registering the search roots on `sys.path` is idempotent, and
never makes a root appear more than once (when it did not already). -/
theorem add_current_dir_idempotent (dir_exists : String → Bool)
    (watch_path : String) (sys_path : List String) :
    add_current_dir_to_path dir_exists watch_path
        (add_current_dir_to_path dir_exists watch_path sys_path) =
      add_current_dir_to_path dir_exists watch_path sys_path ∧
    (∀ r, sys_path.count r ≤ 1 →
      (add_current_dir_to_path dir_exists watch_path sys_path).count r ≤ 1) := by
  constructor
  · show pstep dir_exists (pstep dir_exists
      (pstep dir_exists (pstep dir_exists sys_path watch_path) (pjoin watch_path "Utils"))
      watch_path) (pjoin watch_path "Utils") = _
    set w := watch_path
    set u := pjoin watch_path "Utils"
    set s2 := pstep dir_exists (pstep dir_exists sys_path w) u with hs2
    have hw : pstep dir_exists s2 w = s2 := by
      by_cases hde : dir_exists w = true
      · exact pstep_of_mem _ _ _ (pstep_mem _ _ _ _ (pstep_self_mem _ _ _ hde))
      · exact pstep_of_not_exists _ _ _ hde
    have hu : pstep dir_exists s2 u = s2 := by
      by_cases hde : dir_exists u = true
      · exact pstep_of_mem _ _ _ (by rw [hs2]; exact pstep_self_mem _ _ _ hde)
      · exact pstep_of_not_exists _ _ _ hde
    rw [hw, hu]
    rfl
  · intro r hr
    exact pstep_count_le _ _ _ _ (pstep_count_le _ _ _ _ hr)

theorem add_current_dir_idempotent_witness :
    add_current_dir_to_path envA.dir_exists "/w"
        (add_current_dir_to_path envA.dir_exists "/w" []) =
      add_current_dir_to_path envA.dir_exists "/w" [] ∧
    (add_current_dir_to_path envA.dir_exists "/w" []).count "/w" ≤ 1 :=
  ⟨(add_current_dir_idempotent envA.dir_exists "/w" []).1,
   (add_current_dir_idempotent envA.dir_exists "/w" []).2 "/w" (by decide)⟩


theorem stripPyChars_append_suffix : ∀ t : List Char, hasPySub t = false →
    stripPyChars (t ++ ['.', 'p', 'y']) = t
  | [], _ => by decide
  | [c1], _ => by
    by_cases h1 : c1 = '.' <;> simp [stripPyChars, h1]
  | [c1, c2], _ => by
    by_cases h1 : c1 = '.' <;> by_cases h2 : c2 = '.' <;>
      simp [stripPyChars, h1, h2]
  | c1 :: c2 :: c3 :: rest, h => by
    simp only [hasPySub] at h
    by_cases hc : c1 = '.' ∧ c2 = 'p' ∧ c3 = 'y'
    · simp [hc] at h
    · rw [if_neg hc] at h
      show stripPyChars ((c1 :: c2 :: c3 :: rest) ++ ['.', 'p', 'y']) = _
      have step : stripPyChars ((c1 :: c2 :: c3 :: rest) ++ ['.', 'p', 'y']) =
          c1 :: stripPyChars ((c2 :: c3 :: rest) ++ ['.', 'p', 'y']) := by
        simp only [List.cons_append, stripPyChars, if_neg hc]
        rfl
      rw [step, stripPyChars_append_suffix (c2 :: c3 :: rest) h]

/-- **C10**: `replace('.py', '')` deletes every occurrence of `.py`: a name
whose only occurrence is the suffix is stripped to its base, while a name with
an interior `.py` (such as `my.pymod`) loses interior characters too, changing
the target that resolution receives. -/
theorem strip_py_every_occurrence :
    (∀ t : List Char, hasPySub t = false →
      stripPyChars (t ++ ['.', 'p', 'y']) = t) ∧
    stripPyStr "my.pymod" = "mymod" ∧
    possible_paths (stripPyStr "my.pymod") ≠ possible_paths "my.pymod" := by
  refine ⟨stripPyChars_append_suffix, by decide, by decide⟩

theorem strip_py_every_occurrence_witness :
    stripPyChars ("my_module".data ++ ['.', 'p', 'y']) = "my_module".data :=
  strip_py_every_occurrence.1 "my_module".data (by decide)


set_option maxRecDepth 400000 in
/-- **C5 counterexample**: the tracker compares MD5 digests, so two distinct
successive writes with colliding digests (the classical collision pair) are
NOT reported "changed" once each: the second write reports "unchanged". -/
theorem digest_tracker_distinct_writes_cex :
    collA ≠ collB ∧
    has_file_changed (fun q => if q = "test_module.py" then some collA else none)
        [] "test_module.py" =
      (true, [("test_module.py", md5hex collA)]) ∧
    has_file_changed (fun q => if q = "test_module.py" then some collB else none)
        [("test_module.py", md5hex collA)] "test_module.py" =
      (false, [("test_module.py", md5hex collA)]) := by
  refine ⟨by decide, by decide, by decide⟩

/-- **C5 (amended)**: for writes whose MD5 digests differ, the tracker reports
"changed" exactly once per write (the first notification after the write is
true, repeated notifications are false) and "unchanged" for a rewrite of
identical bytes. -/
theorem digest_tracker_distinct_digests (p : String) (B1 B2 : List Nat)
    (hne : md5hex B1 ≠ md5hex B2) :
    has_file_changed (fun q => if q = p then some B1 else none) [] p =
      (true, [(p, md5hex B1)]) ∧
    has_file_changed (fun q => if q = p then some B1 else none)
        [(p, md5hex B1)] p = (false, [(p, md5hex B1)]) ∧
    has_file_changed (fun q => if q = p then some B2 else none)
        [(p, md5hex B1)] p = (true, [(p, md5hex B2)]) ∧
    has_file_changed (fun q => if q = p then some B2 else none)
        [(p, md5hex B2)] p = (false, [(p, md5hex B2)]) := by
  refine ⟨?_, ?_, ?_, ?_⟩ <;>
    simp [has_file_changed, os_path_exists, get_file_hash, dictGet,
      dictContains, dictSet, List.find?, hne, Ne.symm hne]

set_option maxRecDepth 40000 in
theorem digest_tracker_distinct_digests_witness :
    has_file_changed (fun q => if q = "a.py" then some [] else none) [] "a.py" =
      (true, [("a.py", md5hex [])]) ∧
    has_file_changed (fun q => if q = "a.py" then some ([97] : List Nat) else none)
        [("a.py", md5hex [])] "a.py" = (true, [("a.py", md5hex [97])]) :=
  ⟨(digest_tracker_distinct_digests "a.py" [] [97] (by decide)).1,
   (digest_tracker_distinct_digests "a.py" [] [97] (by decide)).2.2.1⟩


/-- **C1 (amended)**: no load happens before the watch loop: startup leaves the
loaded handle null even for a valid target; the Unloaded-to-Loaded transition
is performed by the first watcher-delivered notification that passes the path
filter and the digest check, via `import_module`. -/
theorem startup_no_initial_load (env : Env) (target : String)
    (show_ui clear_on_reload : Bool) (wp : String) (sp0 : List String) :
    (∀ st evs,
      watch_and_reload_startup env target show_ui clear_on_reload wp sp0 =
        .ok (st, evs) → st.module = none) ∧
    (∀ (st : Reloader) (src : String) (m : Nat), st.module = none →
      endswith_py src = true →
      env.resolve src = env.resolve st.module_file_path →
      (has_file_changed env.fs st.file_hashes (env.resolve src)).1 = true →
      env.import_module st.module_name = .ok m →
      (on_modified env st src).1.module = some m) := by
  constructor
  · intro st evs h
    unfold watch_and_reload_startup codeReloader_init at h
    cases hv : verify_module_exists (fun p => os_path_exists env.fs p)
        (stripPyStr target) with
    | error l => rw [hv] at h; cases h
    | ok nf => rw [hv] at h; cases h; rfl
  · intro st src m h0 he hr hch him
    rw [hr] at hch
    unfold on_modified
    simp only [he, if_true, hr, if_pos rfl, hch, if_true]
    unfold reload_module
    simp only [h0, him]
    cases hc : env.callback with
    | none => simp
    | some cb =>
      cases hres : cb m with
      | error e => simp [hres]
      | ok u => simp [hres]

/-- **C1 counterexample**: with a valid target (`test_module.py` exists) and no
modification ever delivered, the state after startup has a null loaded handle:
no initial load is performed before the watch loop. -/
theorem startup_no_initial_load_cex :
    ((watch_and_reload_startup envB "test_module" true false "/w" []).map
        (fun r => r.1.module) = .ok none) ∧
    (fsA "test_module.py").isSome = true := ⟨rfl, rfl⟩

set_option maxRecDepth 40000 in
theorem startup_no_initial_load_witness :
    (on_modified envB { stA with module := none } "test_module.py").1.module =
      some 1 :=
  (startup_no_initial_load envB "test_module" true false "/w" []).2
    { stA with module := none } "test_module.py" 1 rfl (by decide) rfl
    (by decide) rfl

/-- **C2 (amended)**: every error during a load or reload attempt, including
callback errors, is caught at the reloader boundary.  When the import or
reload call itself fails the loaded handle is unchanged, and a subsequent
successful reload's callback receives the handle obtained by reloading that
preserved handle; when the user callback fails, the freshly loaded handle has
already replaced the previous one and remains current. -/
theorem reload_errors_caught (env : Env) (st : Reloader) :
    (∀ e, st.module = none → env.import_module st.module_name = .error e →
      (reload_module env st).1.module = none) ∧
    (∀ m0 e, st.module = some m0 → env.reload m0 = .error e →
      (reload_module env st).1.module = some m0) ∧
    (∀ m0 m1 cb e, st.module = some m0 → env.reload m0 = .ok m1 →
      env.callback = some cb → cb m1 = .error e →
      (reload_module env st).1.module = some m1) ∧
    (∀ m0 e, st.module = some m0 → env.reload m0 = .error e →
      ∀ (env2 : Env) (m1 : Nat) (cb : Nat → Except String Unit),
        env2.reload m0 = .ok m1 → env2.callback = some cb → cb m1 = .ok () →
        Ev.callbackCall m1 ∈ (reload_module env2 (reload_module env st).1).2) := by
  have herr : ∀ m0 e, st.module = some m0 → env.reload m0 = .error e →
      (reload_module env st).1.module = some m0 := by
    intro m0 e h0 hrl
    simp [reload_module, h0, hrl]
  refine ⟨?_, herr, ?_, ?_⟩
  · intro e h0 him
    simp [reload_module, h0, him]
  · intro m0 m1 cb e h0 hrl hcb hres
    simp [reload_module, h0, hrl, hcb, hres]
  · intro m0 e h0 hrl env2 m1 cb hrl2 hcb2 hres2
    have h1 : (reload_module env st).1.module = some m0 := herr m0 e h0 hrl
    conv in reload_module env2 _ => rw [reload_module]
    simp only [h1, hrl2, hcb2, hres2]
    simp [List.mem_append]

/-- **C2 counterexample**: when the user callback raises during a reload, the
error is caught but the state HAS transitioned: the freshly loaded handle (6),
not the previously loaded one (5), is current afterwards. -/
theorem reload_errors_caught_cex :
    (reload_module envB stA).1.module = some 6 ∧
    (reload_module envB stA).1.module ≠ stA.module := ⟨by decide, by decide⟩

theorem reload_errors_caught_witness :
    (reload_module envC stA).1.module = some 5 ∧
    Ev.callbackCall 6 ∈ (reload_module envD (reload_module envC stA).1).2 :=
  ⟨(reload_errors_caught envC stA).2.1 5 "SyntaxError" rfl rfl,
   (reload_errors_caught envC stA).2.2.2 5 "SyntaxError" rfl rfl envD 6
     (fun _ => .ok ()) rfl rfl rfl⟩


/-- **C8**: the version flag always wins (exit 0); a missing module without it
prints help (exit 1); a resolution failure prints the error (exit 1). -/
theorem cli_exit_codes (env : Env) (wp : String) (sp0 : List String)
    (args : Args) :
    (args.version = true →
      main_logic env wp sp0 args = .versionShown ∧
      exit_code (main_logic env wp sp0 args) = some 0) ∧
    (args.version = false → args.module = none →
      main_logic env wp sp0 args = .helpShown ∧
      exit_code (main_logic env wp sp0 args) = some 1) ∧
    (∀ m attempted, args.version = false → args.module = some m →
      verify_module_exists (fun p => os_path_exists env.fs p)
          (stripPyStr (stripPyStr m)) = .error attempted →
      main_logic env wp sp0 args = .resolutionError attempted ∧
      exit_code (main_logic env wp sp0 args) = some 1) := by
  refine ⟨fun hv => ?_, fun hv hm => ?_, fun m attempted hv hm hres => ?_⟩
  · simp [main_logic, hv, exit_code]
  · simp [main_logic, hv, hm, exit_code]
  · simp [main_logic, hv, hm, watch_and_reload_startup, codeReloader_init,
      hres, exit_code]

theorem cli_exit_codes_witness :
    (main_logic envA "/w" [] ⟨some "mod", true, false, false⟩ = .versionShown ∧
      exit_code (main_logic envA "/w" [] ⟨some "mod", true, false, false⟩) =
        some 0) ∧
    (main_logic envA "/w" [] ⟨none, false, false, false⟩ = .helpShown ∧
      exit_code (main_logic envA "/w" [] ⟨none, false, false, false⟩) =
        some 1) ∧
    (main_logic envA "/w" [] ⟨some "nope", false, false, false⟩ =
        .resolutionError (possible_paths "nope") ∧
      exit_code (main_logic envA "/w" [] ⟨some "nope", false, false, false⟩) =
        some 1) :=
  ⟨(cli_exit_codes envA "/w" [] ⟨some "mod", true, false, false⟩).1 rfl,
   (cli_exit_codes envA "/w" [] ⟨none, false, false, false⟩).2.1 rfl rfl,
   (cli_exit_codes envA "/w" [] ⟨some "nope", false, false, false⟩).2.2 "nope"
     (possible_paths "nope") rfl rfl rfl⟩

theorem cbe_append (l1 l2 : List Ev) :
    callbackEvents (l1 ++ l2) = callbackEvents l1 ++ callbackEvents l2 :=
  List.filter_append _ _

theorem cbe_pre (c u : Bool) (n : String) :
    callbackEvents
      (if c = true then Ev.clearConsole :: (if u = true then [Ev.header n] else [])
       else []) = [] := by
  cases c <;> cases u <;> simp [callbackEvents, Ev.isConsole]

theorem cbe_err (st : Reloader) (e : String) :
    callbackEvents (reload_error_events st e) = [] := by
  unfold reload_error_events
  cases hsu : st.show_ui <;> simp [callbackEvents, Ev.isConsole]

theorem cbe_succ (u : Bool) (n : String) :
    callbackEvents (if u = true then [Ev.success n] else []) = [] := by
  cases u <;> simp [callbackEvents, Ev.isConsole]

theorem cbe_cb (m : Nat) (l : List Ev) :
    callbackEvents (Ev.callbackCall m :: l) = Ev.callbackCall m :: callbackEvents l := by
  simp [callbackEvents, Ev.isConsole]

theorem reload_module_show_ui (env : Env) (st : Reloader) (b : Bool) :
    (reload_module env { st with show_ui := b }).1 =
      { (reload_module env st).1 with show_ui := b } ∧
    callbackEvents (reload_module env { st with show_ui := b }).2 =
      callbackEvents (reload_module env st).2 := by
  cases hm : st.module with
  | none =>
    cases him : env.import_module st.module_name with
    | error e =>
      simp [reload_module, hm, him, cbe_append, cbe_pre, cbe_err, cbe_succ]
    | ok m =>
      cases hc : env.callback with
      | none =>
        simp [reload_module, hm, him, hc, cbe_append, cbe_pre, cbe_err,
          cbe_succ]
      | some cb =>
        cases hres : cb m with
        | error e =>
          simp [reload_module, hm, him, hc, hres, cbe_append, cbe_pre,
            cbe_err, cbe_succ, cbe_cb]
        | ok u =>
          simp [reload_module, hm, him, hc, hres, cbe_append, cbe_pre,
            cbe_err, cbe_succ, cbe_cb]
  | some m0 =>
    cases hrl : env.reload m0 with
    | error e =>
      simp [reload_module, hm, hrl, cbe_append, cbe_pre, cbe_err, cbe_succ]
    | ok m =>
      cases hc : env.callback with
      | none =>
        simp [reload_module, hm, hrl, hc, cbe_append, cbe_pre, cbe_err,
          cbe_succ]
      | some cb =>
        cases hres : cb m with
        | error e =>
          simp [reload_module, hm, hrl, hc, hres, cbe_append, cbe_pre,
            cbe_err, cbe_succ, cbe_cb]
        | ok u =>
          simp [reload_module, hm, hrl, hc, hres, cbe_append, cbe_pre,
            cbe_err, cbe_succ, cbe_cb]

/-- **C9**: with identical environment and state, runs with the UI enabled and
disabled reach the same non-console state (module handle, digest table,
`sys.path`, name/path fields) and the same callback invocations, during both
construction and every reload attempt; only console output differs. -/
theorem ui_flag_noninterference (env : Env) (st : Reloader) (target : String)
    (clear : Bool) (wp : String) (sp0 : List String) :
    (coreState (reload_module env { st with show_ui := true }).1 =
      coreState (reload_module env { st with show_ui := false }).1) ∧
    (callbackEvents (reload_module env { st with show_ui := true }).2 =
      callbackEvents (reload_module env { st with show_ui := false }).2) ∧
    (match codeReloader_init env target true clear wp sp0,
        codeReloader_init env target false clear wp sp0 with
     | .ok r1, .ok r2 =>
        coreState r1.1 = coreState r2.1 ∧
        callbackEvents r1.2 = callbackEvents r2.2
     | .error l1, .error l2 => l1 = l2
     | _, _ => False) := by
  refine ⟨?_, ?_, ?_⟩
  · rw [(reload_module_show_ui env st true).1, (reload_module_show_ui env st false).1]
    simp [coreState]
  · rw [(reload_module_show_ui env st true).2, (reload_module_show_ui env st false).2]
  · cases hv : verify_module_exists (fun p => os_path_exists env.fs p) target with
    | error l => simp [codeReloader_init, hv]
    | ok nf => simp [codeReloader_init, hv, coreState, callbackEvents, Ev.isConsole]

end HotReload
